import Mathlib

/-!
Verification of the RTXNTC support harness against its specification.

The development shallowly embeds the Python sources under `support/tools`
and `support/tests`:

* `compression_study.py` — the sweep tool: experiment enumeration, the
  directory-walk task builder, `FormatDuration`, the `task_ready` progress
  reporter, and the final abort handling.
* `test.py` — the regression tests: in particular `TestCase.computePSNR`.

The `ntc` library itself (the `Arguments`/`Result` marshaling, `ntc.run`,
and `ntc.process_concurrent_tasks`) is not part of these sources; where a
claim is decided by that library, the corresponding definitions are
modelled from the specification and are marked as such in their doc
comments.

Numbers: Python floats are modelled as rationals (`ℚ`), Python ints as
`Int`/`Nat`.  Python floor-division `divmod` is `Int.fdiv`/`Int.fmod`;
Python `int()` on a float truncates toward zero.
-/

namespace NTCStudy

/-! ## FormatDuration (compression_study.py, lines 145-149) -/

/-- Python `int()` applied to a (rational-valued) float: truncation toward zero. -/
def pyInt (q : ℚ) : Int := if 0 ≤ q then ⌊q⌋ else ⌈q⌉

/-- Python `f"{n:02d}"`: decimal rendering zero-padded on the left to width 2. -/
def pad2 (n : Int) : String :=
  if 0 ≤ n ∧ n < 10 then "0" ++ toString n else toString n

/-- `FormatDuration` from `compression_study.py` (lines 145-149):
`seconds = int(seconds)`, then `minutes, seconds = divmod(seconds, 60)`,
then `hours, minutes = divmod(minutes, 60)`, returning
`f"{hours}:{minutes:02d}:{seconds:02d}"`.
Python `divmod` on ints is floor division, i.e. `Int.fdiv`/`Int.fmod`. -/
def FormatDuration (secondsArg : ℚ) : String :=
  let seconds0 : Int := pyInt secondsArg
  let minutes0 : Int := Int.fdiv seconds0 60
  let seconds : Int := Int.fmod seconds0 60
  let hours : Int := Int.fdiv minutes0 60
  let minutes : Int := Int.fmod minutes0 60
  toString hours ++ ":" ++ pad2 minutes ++ ":" ++ pad2 seconds

/-! ## Configuration Model (`ntc.Arguments` as visible from its call sites) -/

/-- Latent-shape descriptor: a small struct of two integers
(`gridSizeScale`, `numFeatures`), as passed by `compression_study.py`. -/
structure LatentShape where
  gridSizeScale : ℕ
  numFeatures : ℕ
deriving DecidableEq, Repr

/-- One job Configuration.  `ntc.Arguments` itself lives in the `ntc`
library (not part of these sources); the recognized fields and their
defaults are taken from the keyword-argument call sites in
`test.py`, `make_test_ntc_files.py` and `compression_study.py`.
Unset optional fields default to `none`, boolean flags to `false`. -/
structure Arguments where
  tool : String := ""
  cudaDevice : Option Int := none
  adapter : Option Int := none
  loadImages : Option String := none
  loadCompressed : Option String := none
  loadManifest : Option String := none
  describe : Bool := false
  compress : Bool := false
  decompress : Bool := false
  bitsPerPixel : Option ℚ := none
  trainingSteps : Option Int := none
  stepsPerIteration : Option Int := none
  saveCompressed : Option String := none
  saveImages : Option String := none
  imageFormat : Option String := none
  bcFormat : Option String := none
  generateMips : Bool := false
  saveMips : Bool := false
  noCoopVec : Bool := false
  noDithering : Bool := false
  graphicsApi : Option String := none
  randomSeed : Option Int := none
  stableTraining : Bool := false
  optimizeBC : Bool := false
  latentShape : Option LatentShape := none
deriving DecidableEq

/-! ## Sweep-tool task enumeration (compression_study.py, lines 33-141) -/

/-- `experiments` from `compression_study.py` lines 34-37:
`for scale in range(1, 7): for features in range(4, 20, 4):
experiments.append(([scale, features], LatentShape(gridSizeScale=scale, numFeatures=features)))`. -/
def experiments : List (List ℕ × LatentShape) :=
  (List.range' 1 6).flatMap fun scale =>
    (List.range' 4 4 4).map fun features =>
      ([scale, features], ⟨scale, features⟩)

/-- One directory visited by `os.walk`, with the fields the loop reads.
`shortDirname` carries `os.path.relpath(dirname, args.dataset)`. -/
structure WalkEntry where
  dirname : String
  shortDirname : String
  numSubdirs : ℕ
  numFiles : ℕ

/-- The command-line arguments of `compression_study.py` that the task
enumeration loop reads.  `filter` holds the resolved `materialFilter`
list (the loop only consults membership in it); `none` means the flag
was absent. -/
structure StudyArgs where
  tool : String := ""
  stride : Option Int := none
  skip : Option Int := none
  limit : Option Int := none
  filter : Option (List String) := none
  mips : Bool := false
  trainingSteps : Int := 100000
  stepsPerIteration : Int := 1000
  compressedDir : Option String := none
  output : Option String := none

/-- Python truthiness of an optional int (`if args.stride and ...`):
`None` and `0` are falsy. -/
def truthy : Option Int → Bool
  | none => false
  | some n => n ≠ 0

/-- Python `"_".join(str(x) for x in l)`. -/
def joinUnderscore (l : List ℕ) : String :=
  String.intercalate "_" (l.map toString)

/-- The task triple appended by one iteration of the inner experiment
loop of `compression_study.py` (lines 117-137): an `ntc.Arguments` with
`compress` and `decompress` set, plus the short directory name and the
experiment description.  `apply_common_settings` sets `randomSeed = 1`. -/
def mkTask (args : StudyArgs) (e : WalkEntry) (exp : List ℕ × LatentShape) :
    Arguments × String × List ℕ :=
  ({ tool := args.tool
     latentShape := some exp.2
     loadImages := some e.dirname
     generateMips := args.mips
     compress := true
     decompress := true
     trainingSteps := some args.trainingSteps
     stepsPerIteration := some args.stepsPerIteration
     saveCompressed := args.compressedDir.map fun d =>
       d ++ "/" ++ e.shortDirname ++ "_" ++ joinUnderscore exp.1 ++ ".ntc"
     randomSeed := some 1 }, e.shortDirname, exp.1)

/-- The task-enumeration loop of `compression_study.py` (lines 99-141),
carrying the running `ordinal` and `count` counters.  Mirrors the source:
skip non-leaf directories, increment `ordinal`, apply the stride / skip /
filter tests (each a `continue`), append one task per experiment,
increment `count`, and `break` once `count >= args.limit` (when `limit`
is truthy).  Python `%` on ints is `Int.fmod`. -/
def buildTasks (args : StudyArgs) : List WalkEntry → Int → Int → List (Arguments × String × List ℕ)
  | [], _, _ => []
  | e :: rest, ordinal, count =>
    if e.numFiles = 0 ∨ e.numSubdirs ≠ 0 then
      buildTasks args rest ordinal count
    else
      let ordinal1 := ordinal + 1
      if truthy args.stride ∧ Int.fmod ordinal1 (args.stride.getD 0) ≠ 0 then
        buildTasks args rest ordinal1 count
      else if truthy args.skip ∧ ordinal1 < args.skip.getD 0 then
        buildTasks args rest ordinal1 count
      else if args.filter.isSome ∧ e.shortDirname ∉ args.filter.getD [] then
        buildTasks args rest ordinal1 count
      else
        let newTasks := experiments.map (mkTask args e)
        let count1 := count + 1
        if truthy args.limit ∧ args.limit.getD 0 ≤ count1 then newTasks
        else newTasks ++ buildTasks args rest ordinal1 count1

/-- The complete task list built by the sweep tool from a dataset walk. -/
def studyTasks (args : StudyArgs) (walk : List WalkEntry) : List (Arguments × String × List ℕ) :=
  buildTasks args walk 0 0

/-- A directory is a task source exactly when it contains at least one
file and no subdirectories (line 104). -/
def isLeaf (e : WalkEntry) : Bool :=
  decide (e.numFiles ≠ 0) && decide (e.numSubdirs = 0)

/-- The stride / skip / filter selection applied to the leaf directory
with 1-based ordinal `ordinal`. -/
def passesSel (args : StudyArgs) (ordinal : Int) (e : WalkEntry) : Prop :=
  ¬(truthy args.stride ∧ Int.fmod ordinal (args.stride.getD 0) ≠ 0) ∧
    ¬(truthy args.skip ∧ ordinal < args.skip.getD 0) ∧
    ¬(args.filter.isSome ∧ e.shortDirname ∉ args.filter.getD [])

instance (args : StudyArgs) (ordinal : Int) (e : WalkEntry) :
    Decidable (passesSel args ordinal e) := by
  unfold passesSel
  infer_instance

/-- The leaf directories that pass the stride / skip / filter selection,
each judged at its 1-based leaf ordinal (ordinals count all leaves, also
the rejected ones), before the limit is applied. -/
def passingDirs (args : StudyArgs) : List WalkEntry → Int → List WalkEntry
  | [], _ => []
  | e :: rest, ordinal =>
    if isLeaf e then
      if passesSel args (ordinal + 1) e then
        e :: passingDirs args rest (ordinal + 1)
      else
        passingDirs args rest (ordinal + 1)
    else
      passingDirs args rest ordinal

/-- The directories selected by the sweep tool: the passing leaves,
truncated by `--limit` when that flag is truthy.  A limit `l ≥ 1` keeps
the first `l`; a negative limit stops after the first selected
directory (the loop breaks only after appending). -/
def selectedDirs (args : StudyArgs) (walk : List WalkEntry) : List WalkEntry :=
  if truthy args.limit then
    (passingDirs args walk 0).take (max (args.limit.getD 0) 1).toNat
  else
    passingDirs args walk 0

/-! ## Progress reporter (compression_study.py, lines 174-179) -/

/-- The estimated-time-remaining computed at line 176 of
`compression_study.py`:
`eta = (originalTaskCount - completedTaskCount) * elapsedTime / float(completedTaskCount)`. -/
def etaSeconds (originalTaskCount completedTaskCount : ℕ) (elapsedTime : ℚ) : ℚ :=
  ((originalTaskCount : ℚ) - (completedTaskCount : ℚ)) * elapsedTime / (completedTaskCount : ℚ)

/-! ## Sweep-tool epilogue (compression_study.py, lines 182-192) -/

/-- The tail of `compression_study.py` after the scheduler call, as a
function of whether `--output` was given and of the returned abort flag:
the messages printed after the batch and the process exit status.
The source only closes the file, prints, and exits with status 2 inside
the `if args.output is not None:` block; a script that falls through
exits with status 0. -/
def studyEpilogue (outputSet terminated : Bool) : List String × ℕ :=
  if outputSet then
    if terminated then (["", "Test aborted."], 2) else ([""], 0)
  else
    ([], 0)

/-! ## Device-Bound Concurrent Scheduler

`ntc.process_concurrent_tasks` lives in the `ntc` library, which is not
part of these sources; the model below is built from the specification
(§4.3, §5 and §8) and is used by the claims about the scheduler. -/

/-- One `onComplete` invocation: the job (identified by its submission
index), the original total job count (3rd argument) and the running
completed count (4th argument). -/
structure CallRecord where
  job : ℕ
  total : ℕ
  completed : ℕ
deriving DecidableEq, Repr

/-- Modelled from the spec: the state of one scheduler batch
(`ntc.process_concurrent_tasks` is missing from the sources).  Jobs are
identified by submission index; `pending` is the FIFO admission queue,
`running` binds each in-flight job to a device identifier, `free` holds
the currently unbound device identifiers, and `calls` records the
`onComplete` invocations in order. -/
structure SchedState where
  pending : List ℕ
  running : List (ℕ × ℕ)
  free : List ℕ
  completedCount : ℕ
  failedCount : ℕ
  calls : List CallRecord
  cancelled : Bool
  total : ℕ
deriving DecidableEq, Repr

/-- The batch state when the scheduler accepts `jobs` on `devices`. -/
def initState (jobs : List ℕ) (devices : List ℕ) : SchedState :=
  { pending := jobs
    running := []
    free := devices
    completedCount := 0
    failedCount := 0
    calls := []
    cancelled := false
    total := jobs.length }

/-- Modelled from the spec: the atomic transitions of the scheduler
(§4.3, §5).  `assign` admits the lowest-index pending job to a free
device (only while not cancelled); `complete` settles a running job,
frees its device, and invokes `onComplete` with the original total and
the incremented completed count; `fail` settles a running job as failed
with no `onComplete` call; `cancel` records the cooperative cancellation
signal. -/
inductive SchedStep : SchedState → SchedState → Prop
  | assign (s : SchedState) (j : ℕ) (rest : List ℕ) (d : ℕ) (dfree : List ℕ) :
      s.cancelled = false →
      s.pending = j :: rest →
      s.free = d :: dfree →
      SchedStep s { s with pending := rest, free := dfree,
                           running := s.running ++ [(d, j)] }
  | complete (s : SchedState) (pre post : List (ℕ × ℕ)) (d j : ℕ) :
      s.running = pre ++ (d, j) :: post →
      SchedStep s { s with running := pre ++ post, free := d :: s.free,
                           completedCount := s.completedCount + 1,
                           calls := s.calls ++ [⟨j, s.total, s.completedCount + 1⟩] }
  | fail (s : SchedState) (pre post : List (ℕ × ℕ)) (d j : ℕ) :
      s.running = pre ++ (d, j) :: post →
      SchedStep s { s with running := pre ++ post, free := d :: s.free,
                           failedCount := s.failedCount + 1 }
  | cancel (s : SchedState) :
      SchedStep s { s with cancelled := true }

/-- Reachability of a batch state from the initial submission state. -/
def SchedReach (jobs devices : List ℕ) (s : SchedState) : Prop :=
  Relation.ReflTransGen SchedStep (initState jobs devices) s

/-- The scheduler returns exactly when no job is in flight and either
everything was admitted and settled or the batch was cancelled; the
returned abort flag is `cancelled`. -/
def SchedDone (s : SchedState) : Prop :=
  s.running = [] ∧ (s.pending = [] ∨ s.cancelled = true)

/-! ## Invocation Protocol (`ntc.run`), modelled from the spec -/

/-- One per-compression-run record of a `Result`: the ordered learning
curve sampled every `stepsPerIteration` steps. -/
structure CompressionRun where
  learningCurve : List ℚ
deriving DecidableEq, Repr

/-- The `Result` value produced by one invocation, with the fields read
by the call sites in these sources.  The sequence-valued fields
`compressionRuns` and `perMipPsnr` are plain lists: the specification
rules out null-vs-empty ambiguity, so the model gives them no `Option`. -/
structure Result where
  dimensions : ℕ × ℕ := (0, 0)
  channels : ℕ := 0
  mipLevels : ℕ := 0
  gpuFeatures : List String := []
  bitsPerPixel : ℚ := 0
  overallPsnr : ℚ := 0
  compressionRuns : List CompressionRun := []
  perMipPsnr : List ℚ := []
  graphicsApi : String := ""
  savedFileBpp : Option ℚ := none
  elapsedTime : ℚ := 0
deriving DecidableEq

/-- The error taxonomy of the Invocation Protocol (§7). -/
inductive NtcError where
  | configurationError
  | executionFailure
  | parseFailure
deriving DecidableEq, Repr

/-- Modelled from the spec: the observable behavior of one external-tool
child process (the tool binary is outside the repository): its exit
status, whether its output parses into the expected structured form, and
the parsed payload fields. -/
structure ToolBehavior where
  exitCode : ℕ := 0
  parses : Bool := true
  dimensions : ℕ × ℕ := (0, 0)
  channels : ℕ := 0
  mipLevels : ℕ := 0
  gpuFeatures : List String := []
  bitsPerPixel : ℚ := 0
  overallPsnr : ℚ := 0
  curveRuns : List CompressionRun := []
  perMip : List ℚ := []
  graphicsApiName : String := ""
  savedFileBpp : Option ℚ := none
  elapsedTime : ℚ := 0

/-- The outcome of `ntc.run`: the returned or raised value, plus the
number of child processes that were spawned by the call. -/
structure RunOutcome where
  result : Except NtcError Result
  spawned : ℕ

/-- Number of input sources set in a Configuration (§3: at most one of
load-images / load-compressed / load-manifest may be set). -/
def inputSourceCount (a : Arguments) : ℕ :=
  (if a.loadImages.isSome then 1 else 0) +
    (if a.loadCompressed.isSome then 1 else 0) +
    (if a.loadManifest.isSome then 1 else 0)

/-- Modelled from the spec: `ntc.run` (Invocation Protocol, §4.2; the
function is missing from the sources).  Validation happens before any
child process is spawned: more than one input source, training
parameters without the compress flag, or deterministic mode without a
random seed are *ConfigurationError*s with no side effect.  Otherwise
exactly one child is spawned; a non-zero exit is *ExecutionFailure*,
unparseable output is *ParseFailure*, and on success the sequence-valued
fields of the Result hold the payload of the tool exactly when the
corresponding request flag was set and are empty lists otherwise. -/
def run (a : Arguments) (tool : ToolBehavior) : RunOutcome :=
  if 1 < inputSourceCount a then
    { result := .error .configurationError, spawned := 0 }
  else if a.trainingSteps.isSome ∧ ¬a.compress then
    { result := .error .configurationError, spawned := 0 }
  else if a.stableTraining ∧ a.randomSeed.isNone then
    { result := .error .configurationError, spawned := 0 }
  else if tool.exitCode ≠ 0 then
    { result := .error .executionFailure, spawned := 1 }
  else if ¬tool.parses then
    { result := .error .parseFailure, spawned := 1 }
  else
    { result := .ok
        { dimensions := tool.dimensions
          channels := tool.channels
          mipLevels := tool.mipLevels
          gpuFeatures := tool.gpuFeatures
          bitsPerPixel := tool.bitsPerPixel
          overallPsnr := tool.overallPsnr
          compressionRuns := if a.compress then tool.curveRuns else []
          perMipPsnr := if a.generateMips then tool.perMip else []
          graphicsApi := tool.graphicsApiName
          savedFileBpp := tool.savedFileBpp
          elapsedTime := tool.elapsedTime }
      spawned := 1 }

/-! ## Serialization of a Configuration into tool flags (spec §6) -/

/-- A boolean Configuration field maps to a presence/absence flag. -/
def boolFlag (name : String) (b : Bool) : List String :=
  if b then [name] else []

/-- An optional string field maps to `--flag value`. -/
def optStrFlag (name : String) : Option String → List String
  | none => []
  | some v => [name, v]

/-- An optional integer field maps to `--flag value`. -/
def optIntFlag (name : String) : Option Int → List String
  | none => []
  | some v => [name, toString v]

/-- An optional rational (Python float) field maps to `--flag value`. -/
def optRatFlag (name : String) : Option ℚ → List String
  | none => []
  | some v => [name, toString v]

/-- Modelled from the spec: the serialized command line of a
Configuration (§6: booleans as presence/absence flags, paths and numbers
as flag-value pairs; the serializer inside `ntc.run` is missing from the
sources).  The flag spelling is irrelevant to the claims; what matters
is that the map is a pure function of the Configuration and carries the
seed and the deterministic-mode flag through unmodified. -/
def serializeArgs (a : Arguments) : List String :=
  optStrFlag "--loadImages" a.loadImages ++
    optStrFlag "--loadCompressed" a.loadCompressed ++
    optStrFlag "--loadManifest" a.loadManifest ++
    boolFlag "--describe" a.describe ++
    boolFlag "--compress" a.compress ++
    boolFlag "--decompress" a.decompress ++
    optRatFlag "--bitsPerPixel" a.bitsPerPixel ++
    optIntFlag "--trainingSteps" a.trainingSteps ++
    optIntFlag "--stepsPerIteration" a.stepsPerIteration ++
    optStrFlag "--saveCompressed" a.saveCompressed ++
    optStrFlag "--saveImages" a.saveImages ++
    boolFlag "--generateMips" a.generateMips ++
    boolFlag "--stableTraining" a.stableTraining ++
    optIntFlag "--randomSeed" a.randomSeed ++
    optIntFlag "--cudaDevice" a.cudaDevice

/-! ## computePSNR (test.py, lines 100-127) -/

/-- Wrap an integer into the signed 16-bit range, as numpy int16
arithmetic does on overflow (two-complement: for example
`255 ^ 2 = 65025` wraps to `-511`). -/
def wrap16 (x : ℤ) : ℤ :=
  (x + 2 ^ 15) % 2 ^ 16 - 2 ^ 15

/-- The element storage of a loaded 2-dimensional array.
`_loadPillowImage` (test.py line 60) converts to `numpy.int16`, whose
samples are integers and whose arithmetic wraps; `_loadExrImage`
(line 73) produces float32, modelled as exact rationals. -/
inductive PixData2 where
  | int16 (v : ℕ → ℕ → ℤ)
  | float (v : ℕ → ℕ → ℚ)

/-- The element storage of a loaded 3-dimensional array, with the same
two dtypes as `PixData2`. -/
inductive PixData3 where
  | int16 (v : ℕ → ℕ → ℕ → ℤ)
  | float (v : ℕ → ℕ → ℕ → ℚ)

/-- A loaded image as a numpy array: either a 2-dimensional
(single-channel) array or a 3-dimensional height-width-channel array,
each carrying its dtype. -/
inductive NpArray where
  | twoD (h w : ℕ) (data : PixData2)
  | threeD (h w c : ℕ) (data : PixData3)

/-- `shape[0:2]` of an array: its height and width. -/
def NpArray.hw : NpArray → ℕ × ℕ
  | .twoD h w _ => (h, w)
  | .threeD h w _ _ => (h, w)

/-- A 3-dimensional array (after `numpy.expand_dims`). -/
structure Arr3 where
  h : ℕ
  w : ℕ
  c : ℕ
  data : PixData3

/-- `numpy.expand_dims(arr, 2)` applied to 2-dimensional arrays,
identity on 3-dimensional ones (test.py lines 110-111); the dtype is
unchanged. -/
def NpArray.toArr3 : NpArray → Arr3
  | .twoD h w (.int16 v) => ⟨h, w, 1, .int16 fun i j _ => v i j⟩
  | .twoD h w (.float v) => ⟨h, w, 1, .float fun i j _ => v i j⟩
  | .threeD h w c d => ⟨h, w, c, d⟩

/-- `numpy.delete(arr2, range(c, arr2.c), 2)`: drop all channels from
index `c` on (test.py line 117). -/
def truncChannels (a : Arr3) (c : ℕ) : Arr3 :=
  { a with c := c }

/-- One element of `(arr1 - arr2) ** 2` under numpy dtype semantics:
when both operands are int16 the stored samples are int16 values and
both the subtraction and the square are performed in int16, wrapping on
overflow (a per-pixel difference of 182 or more overflows the square:
`255 ^ 2` becomes `-511`); when either operand is a float array the
other is promoted to float and the arithmetic is exact. -/
def sqDiffAt (d1 d2 : PixData3) (i j k : ℕ) : ℚ :=
  match d1, d2 with
  | .int16 v1, .int16 v2 =>
      ((wrap16 ((wrap16 (wrap16 (v1 i j k) - wrap16 (v2 i j k))) ^ 2) : ℤ) : ℚ)
  | .int16 v1, .float v2 => (((wrap16 (v1 i j k) : ℤ) : ℚ) - v2 i j k) ^ 2
  | .float v1, .int16 v2 => (v1 i j k - ((wrap16 (v2 i j k) : ℤ) : ℚ)) ^ 2
  | .float v1, .float v2 => (v1 i j k - v2 i j k) ^ 2

/-- `numpy.mean((arr1 - arr2) ** 2)` (test.py line 122): the mean of
the elementwise squared differences — computed in the array dtype, so
wrapping in int16 — over all elements, both arrays indexed by the shape
of the first (they have equal shapes at this point in the source); the
mean itself is taken in float64, modelled exactly. -/
def mse (a b : Arr3) : ℚ :=
  (∑ i ∈ Finset.range a.h, ∑ j ∈ Finset.range a.w, ∑ k ∈ Finset.range a.c,
      sqDiffAt a.data b.data i j k) / ((a.h : ℚ) * a.w * a.c)

/-- The outcome of `TestCase.computePSNR`: a unittest assertion failure,
or the mean squared error from which the returned PSNR is computed as
the fixed monotone expression `10 * log10(255 ** 2 / mse)`. -/
inductive PsnrOutcome where
  | fail
  | ok (mse : ℚ)
deriving DecidableEq, Repr

/-- `TestCase.computePSNR` (test.py lines 100-127) on two already-loaded
arrays: assert equal height and width; expand 2-dimensional arrays to a
single channel; with `ignoreExtraChannels` assert that the second array
has at least as many channels and discard its extra channels, otherwise
assert equal channel counts; then compute the mean squared error (the
PSNR returned by the Python code is a fixed function of it). -/
def computePSNR (arr1 arr2 : NpArray) (ignoreExtraChannels : Bool) : PsnrOutcome :=
  if arr1.hw ≠ arr2.hw then .fail
  else
    let a1 := arr1.toArr3
    let a2 := arr2.toArr3
    if ignoreExtraChannels then
      if a2.c < a1.c then .fail
      else .ok (mse a1 (truncChannels a2 a1.c))
    else
      if a2.c ≠ a1.c then .fail
      else .ok (mse a1 a2)

/-- The batch invariant maintained by every scheduler transition:
the original total is constant; the `onComplete` records carry the
running completed count as the consecutive values `1, 2, ...`; every
record carries the original total; the settled, in-flight and pending
jobs always account for the whole batch; and the devices bound to
running jobs together with the free devices are a permutation of the
supplied device identifiers. -/
def SchedInv (jobs devices : List ℕ) (s : SchedState) : Prop :=
  s.total = jobs.length ∧
    s.calls.length = s.completedCount ∧
    s.calls.map CallRecord.completed = List.range' 1 s.completedCount ∧
    (∀ c ∈ s.calls, c.total = jobs.length) ∧
    s.completedCount + s.failedCount + s.running.length + s.pending.length = jobs.length ∧
    (s.running.map Prod.fst ++ s.free).Perm devices

/-- The terminal state of the one-job one-device example batch:
job 0 ran on device 5 and completed. -/
def exampleFinal : SchedState :=
  { pending := []
    running := []
    free := [5]
    completedCount := 1
    failedCount := 0
    calls := [⟨0, 1, 1⟩]
    cancelled := false
    total := 1 }

theorem fdiv_natCast (a b : ℕ) : Int.fdiv (a : Int) (b : Int) = ((a / b : ℕ) : Int) :=
  (Int.ofNat_fdiv a b).symm

theorem fmod_natCast (a b : ℕ) : Int.fmod (a : Int) (b : Int) = ((a % b : ℕ) : Int) := by
  cases a with
  | zero => simp [Int.fmod]
  | succ m => rfl

/-- C8: for every non-negative duration `s` (in seconds), `FormatDuration s`
renders `h:mm:ss` with `h = ⌊s⌋ / 3600` unpadded, `mm = (⌊s⌋ % 3600) / 60`
zero-padded to two digits, and `ss = ⌊s⌋ % 60` zero-padded to two digits. -/
theorem formatDuration_spec (s : ℚ) (h : 0 ≤ s) :
    FormatDuration s =
      toString ((⌊s⌋.toNat / 3600 : ℕ) : Int) ++ ":" ++
        pad2 ((⌊s⌋.toNat % 3600 / 60 : ℕ) : Int) ++ ":" ++
        pad2 ((⌊s⌋.toNat % 60 : ℕ) : Int) := by
  have hfl : 0 ≤ ⌊s⌋ := Int.floor_nonneg.mpr h
  have hn : ⌊s⌋ = (⌊s⌋.toNat : Int) := (Int.toNat_of_nonneg hfl).symm
  set n : ℕ := ⌊s⌋.toNat with hdef
  simp only [FormatDuration, pyInt, if_pos h]
  rw [hn]
  have h60 : (60 : Int) = ((60 : ℕ) : Int) := rfl
  rw [h60, fdiv_natCast n 60, fmod_natCast n 60, fdiv_natCast (n / 60) 60,
    fmod_natCast (n / 60) 60]
  have e1 : n / 60 / 60 = n / 3600 := by omega
  have e2 : n / 60 % 60 = n % 3600 / 60 := by omega
  rw [e1, e2]

/-- C5 counterexample: when no `--output` file is given, an aborted run
of the sweep tool prints no completion signal at all and the script
falls through to a normal exit with status 0, not 2: the claim fails as
stated, for the concrete input `outputSet = false`, `terminated = true`. -/
theorem studyEpilogue_counterexample :
    (studyEpilogue false true).2 = 0 ∧
      "Test aborted." ∉ (studyEpilogue false true).1 := by
  constructor
  · rfl
  · simp [studyEpilogue]

/-- C5 (amended): when an output CSV file was specified, an aborted run
prints the distinct "Test aborted." signal and exits with status 2,
which differs from the status 0 of a run that completed (job failures
do not change the exit status); with no output file the tool exits 0
even when aborted. -/
theorem studyEpilogue_amended :
    (studyEpilogue true true).2 = 2 ∧
      "Test aborted." ∈ (studyEpilogue true true).1 ∧
      (studyEpilogue true false).2 = 0 ∧
      (studyEpilogue false true).2 = 0 ∧
      (2 : ℕ) ≠ 0 := by
  refine ⟨rfl, ?_, rfl, rfl, by decide⟩
  simp [studyEpilogue]

/-- C6: a Configuration with more than one input source set fails with
*ConfigurationError* and no child process is spawned, whatever the
external tool would have done. -/
theorem run_multipleInputSources (a : Arguments) (tool : ToolBehavior)
    (h : 1 < inputSourceCount a) :
    (run a tool).result = .error .configurationError ∧ (run a tool).spawned = 0 := by
  unfold run
  rw [if_pos h]
  exact ⟨rfl, rfl⟩

/-- C6 witness: a job with both a load-images path and a load-compressed
path set is rejected before any subprocess side effect. -/
theorem run_multipleInputSources_witness :
    1 < inputSourceCount { loadImages := some "a", loadCompressed := some "b" } ∧
      (run { loadImages := some "a", loadCompressed := some "b" }
          ({ } : ToolBehavior)).result = .error .configurationError ∧
      (run { loadImages := some "a", loadCompressed := some "b" }
          ({ } : ToolBehavior)).spawned = 0 :=
  ⟨by decide, run_multipleInputSources _ _ (by decide)⟩

/-- C4: whenever `ntc.run` returns with a zero exit status (an `.ok`
Result), the sequence-valued fields hold the tool payload exactly when
the corresponding request flag was set in the Configuration and are
empty lists otherwise; by their type they are never null. -/
theorem run_sequenceFields (a : Arguments) (tool : ToolBehavior) (r : Result)
    (h : (run a tool).result = .ok r) :
    r.compressionRuns = (if a.compress then tool.curveRuns else []) ∧
      r.perMipPsnr = (if a.generateMips then tool.perMip else []) ∧
      (a.compress = false → r.compressionRuns = []) ∧
      (a.generateMips = false → r.perMipPsnr = []) := by
  unfold run at h
  split_ifs at h with h1 h2 h3 h4 h5 <;> injection h with h <;> (subst h; simp_all)

/-- C4 witness: a compress-and-decompress job against a well-behaved
tool yields a Result whose learning curve is exactly the tool payload
and whose per-mip list is empty because mips were not requested. -/
theorem run_sequenceFields_witness :
    (run { loadImages := some "d", compress := true, decompress := true }
          { curveRuns := [⟨[30]⟩] }).result =
        .ok { compressionRuns := [⟨[30]⟩] } ∧
      ({ compressionRuns := [⟨[30]⟩] } : Result).compressionRuns =
          (if ({ loadImages := some "d", compress := true, decompress := true } :
              Arguments).compress then [⟨[30]⟩] else []) ∧
        ({ compressionRuns := [⟨[30]⟩] } : Result).perMipPsnr =
          (if ({ loadImages := some "d", compress := true, decompress := true } :
              Arguments).generateMips then ({ curveRuns := [⟨[30]⟩] } : ToolBehavior).perMip
            else []) := by
  refine ⟨rfl, ?_⟩
  have h := run_sequenceFields
    { loadImages := some "d", compress := true, decompress := true }
    { curveRuns := [⟨[30]⟩] } { compressionRuns := [⟨[30]⟩] } rfl
  exact ⟨h.1, h.2.1⟩

theorem serialize_stableTraining_mem (a : Arguments) (h : a.stableTraining = true) :
    "--stableTraining" ∈ serializeArgs a := by
  simp [serializeArgs, boolFlag, h]

theorem serialize_randomSeed_sublist (a : Arguments) (k : Int) (h : a.randomSeed = some k) :
    List.Sublist ["--randomSeed", toString k] (serializeArgs a) := by
  unfold serializeArgs
  rw [h]
  refine List.Sublist.trans ?_ (List.sublist_append_left _ _)
  refine List.Sublist.trans ?_ (List.sublist_append_right _ _)
  simp [optIntFlag]

/-- C7: for a Configuration with the deterministic-mode flag and a fixed
random seed, the serialized command line is a pure function of the
Configuration (so byte-identical Configurations produce identical
invocations), the seed and the mode flag are passed through to the
external tool unmodified, and — given the determinism contract the spec
assigns to the external tool for deterministic-mode command lines — two
invocations produce byte-identical artifact files. -/
theorem run_deterministicArtifacts (a : Arguments) (k : Int)
    (toolRun : List String → List ℕ → Prop)
    (hstable : a.stableTraining = true) (hseed : a.randomSeed = some k)
    (hdet : ∀ cmd, "--stableTraining" ∈ cmd →
      ∀ o1 o2, toolRun cmd o1 → toolRun cmd o2 → o1 = o2)
    (bytes1 bytes2 : List ℕ)
    (h1 : toolRun (serializeArgs a) bytes1) (h2 : toolRun (serializeArgs a) bytes2) :
    bytes1 = bytes2 ∧ "--stableTraining" ∈ serializeArgs a ∧
      List.Sublist ["--randomSeed", toString k] (serializeArgs a) :=
  ⟨hdet (serializeArgs a) (serialize_stableTraining_mem a hstable) bytes1 bytes2 h1 h2,
    serialize_stableTraining_mem a hstable,
    serialize_randomSeed_sublist a k hseed⟩

/-- C7 witness: the theorem at a concrete deterministic Configuration
and a concrete deterministic external tool. -/
theorem run_deterministicArtifacts_witness :
    ({ loadImages := some "m", compress := true, stableTraining := true,
        randomSeed := some 1234 } : Arguments).stableTraining = true ∧
      ((7 : ℕ) :: []) = ((7 : ℕ) :: []) ∧
        "--stableTraining" ∈ serializeArgs
            { loadImages := some "m", compress := true, stableTraining := true,
              randomSeed := some 1234 } ∧
        List.Sublist ["--randomSeed", toString (1234 : Int)]
          (serializeArgs
            { loadImages := some "m", compress := true, stableTraining := true,
              randomSeed := some 1234 }) :=
  ⟨rfl,
    run_deterministicArtifacts
      { loadImages := some "m", compress := true, stableTraining := true,
        randomSeed := some 1234 }
      1234 (fun _ out => out = [7]) rfl rfl
      (fun _ _ _ _ ho1 ho2 => ho1.trans ho2.symm)
      [7] [7] rfl rfl⟩

/-- C9: `computePSNR` raises a test assertion exactly when the two
images differ in height or width, or (`ignoreExtraChannels = false`)
their channel counts differ, or (`ignoreExtraChannels = true`) the
second image has fewer channels than the first; otherwise it computes
the mean squared error — with extra channels of the second image
discarded in the `ignoreExtraChannels` case — from which the PSNR is
derived. -/
theorem computePSNR_spec (arr1 arr2 : NpArray) (ign : Bool) :
    (computePSNR arr1 arr2 ign = .fail ↔
        arr1.hw ≠ arr2.hw ∨
          (ign = false ∧ arr2.toArr3.c ≠ arr1.toArr3.c) ∨
          (ign = true ∧ arr2.toArr3.c < arr1.toArr3.c)) ∧
      (ign = true → arr1.hw = arr2.hw → arr1.toArr3.c ≤ arr2.toArr3.c →
        computePSNR arr1 arr2 ign =
          .ok (mse arr1.toArr3 (truncChannels arr2.toArr3 arr1.toArr3.c))) ∧
      (ign = false → arr1.hw = arr2.hw → arr2.toArr3.c = arr1.toArr3.c →
        computePSNR arr1 arr2 ign = .ok (mse arr1.toArr3 arr2.toArr3)) := by
  unfold computePSNR
  refine ⟨?_, ?_, ?_⟩
  · split_ifs <;> simp_all
  · intro hign hhw hle
    rw [if_neg (by simp [hhw]), hign]
    simp only [if_true]
    rw [if_neg (by omega)]
  · intro hign hhw hne
    rw [if_neg (by simp [hhw]), hign]
    simp only [Bool.false_eq_true, if_false]
    rw [if_neg (by omega)]

/-- C9 witness: two concrete 1x1 int16-dtype (Pillow-path) images, the
second with one extra channel; with `ignoreExtraChannels` the extra
channel is discarded and the mean squared error of the remaining
channel is returned — and for a per-pixel difference of 255 the int16
square wraps, so the returned mean squared error is `-511`, not
`65025`. -/
theorem computePSNR_spec_witness :
    (NpArray.threeD 1 1 1 (.int16 fun _ _ _ => 255)).hw =
        (NpArray.threeD 1 1 2 (.int16 fun _ _ _ => 0)).hw ∧
      (NpArray.threeD 1 1 1 (.int16 fun _ _ _ => 255)).toArr3.c ≤
        (NpArray.threeD 1 1 2 (.int16 fun _ _ _ => 0)).toArr3.c ∧
      computePSNR (NpArray.threeD 1 1 1 (.int16 fun _ _ _ => 255))
          (NpArray.threeD 1 1 2 (.int16 fun _ _ _ => 0)) true =
        .ok (mse (NpArray.threeD 1 1 1 (.int16 fun _ _ _ => 255)).toArr3
          (truncChannels (NpArray.threeD 1 1 2 (.int16 fun _ _ _ => 0)).toArr3
            (NpArray.threeD 1 1 1 (.int16 fun _ _ _ => 255)).toArr3.c)) ∧
      mse (NpArray.threeD 1 1 1 (.int16 fun _ _ _ => 255)).toArr3
          (truncChannels (NpArray.threeD 1 1 2 (.int16 fun _ _ _ => 0)).toArr3
            (NpArray.threeD 1 1 1 (.int16 fun _ _ _ => 255)).toArr3.c) = -511 :=
  ⟨rfl, by decide,
    (computePSNR_spec (NpArray.threeD 1 1 1 (.int16 fun _ _ _ => 255))
      (NpArray.threeD 1 1 2 (.int16 fun _ _ _ => 0)) true).2.1 rfl rfl (by decide),
    by norm_num [mse, sqDiffAt, wrap16, NpArray.toArr3, truncChannels,
      Finset.sum_range_one]⟩

/-- C8 witness: the theorem instantiated at `s = 3725.5` seconds,
which formats as `1:02:05`. -/
theorem formatDuration_spec_witness :
    0 ≤ (3725.5 : ℚ) ∧
      FormatDuration (3725.5 : ℚ) =
        toString ((⌊(3725.5 : ℚ)⌋.toNat / 3600 : ℕ) : Int) ++ ":" ++
          pad2 ((⌊(3725.5 : ℚ)⌋.toNat % 3600 / 60 : ℕ) : Int) ++ ":" ++
          pad2 ((⌊(3725.5 : ℚ)⌋.toNat % 60 : ℕ) : Int) :=
  ⟨by norm_num, formatDuration_spec (3725.5 : ℚ) (by norm_num)⟩

theorem schedInv_init (jobs devices : List ℕ) :
    SchedInv jobs devices (initState jobs devices) := by
  refine ⟨rfl, rfl, rfl, ?_, ?_, ?_⟩
  · intro c hc
    simp [initState] at hc
  · simp [initState]
  · simp [initState]

theorem schedInv_step (jobs devices : List ℕ) (s t : SchedState)
    (hs : SchedInv jobs devices s) (hst : SchedStep s t) : SchedInv jobs devices t := by
  obtain ⟨h1, h2, h3, h4, h5, h6⟩ := hs
  cases hst with
  | assign j rest d dfree hcan hpend hfree =>
    have hplen : s.pending.length = rest.length + 1 := by rw [hpend]; rfl
    refine ⟨h1, h2, h3, h4, ?_, ?_⟩
    · simp only [List.length_append, List.length_cons, List.length_nil]
      omega
    · rw [hfree] at h6
      simpa [List.map_append] using h6
  | complete pre post d j hrun =>
    have hrlen : s.running.length = pre.length + post.length + 1 := by
      rw [hrun]
      simp only [List.length_append, List.length_cons]
      omega
    refine ⟨h1, ?_, ?_, ?_, ?_, ?_⟩
    · simp [h2]
    · simp [h3, List.range'_concat, Nat.add_comm]
    · intro c hc
      rcases List.mem_append.mp hc with hc | hc
      · exact h4 c hc
      · simp at hc
        rw [hc, h1]
    · simp only [List.length_append]
      omega
    · rw [hrun] at h6
      simp only [List.map_append, List.map_cons] at h6 ⊢
      refine List.Perm.trans ?_ h6
      rw [List.append_assoc, List.append_assoc, List.cons_append]
      exact List.Perm.append_left _ List.perm_middle
  | fail pre post d j hrun =>
    have hrlen : s.running.length = pre.length + post.length + 1 := by
      rw [hrun]
      simp only [List.length_append, List.length_cons]
      omega
    refine ⟨h1, h2, h3, h4, ?_, ?_⟩
    · simp only [List.length_append]
      omega
    · rw [hrun] at h6
      simp only [List.map_append, List.map_cons] at h6 ⊢
      refine List.Perm.trans ?_ h6
      rw [List.append_assoc, List.append_assoc, List.cons_append]
      exact List.Perm.append_left _ List.perm_middle
  | cancel =>
    exact ⟨h1, h2, h3, h4, h5, h6⟩

theorem schedInv_reach (jobs devices : List ℕ) (s : SchedState)
    (h : SchedReach jobs devices s) : SchedInv jobs devices s := by
  induction h with
  | refl => exact schedInv_init jobs devices
  | tail _ hstep ih => exact schedInv_step jobs devices _ _ ih hstep

/-- An explicit execution of the example batch: one job, one device;
the job is assigned to device 5 and completes. -/
theorem exampleFinal_reach : SchedReach [0] [5] exampleFinal :=
  Relation.ReflTransGen.tail
    (Relation.ReflTransGen.single
      (SchedStep.assign (initState [0] [5]) 0 [] 5 [] rfl rfl rfl))
    (SchedStep.complete
      { pending := [], running := [(5, 0)], free := [], completedCount := 0,
        failedCount := 0, calls := [], cancelled := false, total := 1 }
      [] [] 5 0 rfl)

/-- C1: in every completed (non-cancelled) batch, `onComplete` is called
exactly `|jobs| - failedCount` times, its 3rd argument is the constant
original total job count across all calls, and its 4th argument takes
the consecutive values `1, 2, ..., k`, increasing by exactly 1 on each
successive call. -/
theorem sched_onComplete_calls (jobs devices : List ℕ) (s : SchedState)
    (hreach : SchedReach jobs devices s) (hdone : SchedDone s)
    (hnc : s.cancelled = false) :
    s.calls.length + s.failedCount = jobs.length ∧
      s.calls.length = jobs.length - s.failedCount ∧
      (∀ c ∈ s.calls, c.total = jobs.length) ∧
      s.calls.map CallRecord.completed = List.range' 1 s.calls.length := by
  obtain ⟨h1, h2, h3, h4, h5, h6⟩ := schedInv_reach jobs devices s hreach
  obtain ⟨hrun0, hp⟩ := hdone
  have hpend : s.pending = [] := by
    rcases hp with hp | hp
    · exact hp
    · rw [hnc] at hp
      exact absurd hp (by simp)
  have hlen : s.completedCount + s.failedCount = jobs.length := by
    rw [hrun0, hpend] at h5
    simpa using h5
  refine ⟨by omega, by omega, h4, ?_⟩
  rw [h2]
  exact h3

/-- C1 witness: the theorem at the example batch (one job on one
device): one call, with total 1 and completed count 1. -/
theorem sched_onComplete_calls_witness :
    SchedDone exampleFinal ∧ exampleFinal.cancelled = false ∧
      exampleFinal.calls.length + exampleFinal.failedCount = ([0] : List ℕ).length ∧
      exampleFinal.calls.length = ([0] : List ℕ).length - exampleFinal.failedCount ∧
      (∀ c ∈ exampleFinal.calls, c.total = ([0] : List ℕ).length) ∧
      exampleFinal.calls.map CallRecord.completed =
        List.range' 1 exampleFinal.calls.length := by
  have h := sched_onComplete_calls [0] [5] exampleFinal exampleFinal_reach
    ⟨rfl, Or.inl rfl⟩ rfl
  exact ⟨⟨rfl, Or.inl rfl⟩, rfl, h.1, h.2.1, h.2.2.1, h.2.2.2⟩

/-- C2: in every reachable batch state, the number of `Running` jobs is
at most the number of supplied device identifiers, and (for distinct
device identifiers) no identifier is bound to two `Running` jobs at
once. -/
theorem sched_device_binding (jobs devices : List ℕ) (s : SchedState)
    (hreach : SchedReach jobs devices s) (hnodup : devices.Nodup) :
    s.running.length ≤ devices.length ∧ (s.running.map Prod.fst).Nodup := by
  obtain ⟨-, -, -, -, -, h6⟩ := schedInv_reach jobs devices s hreach
  constructor
  · have hl := h6.length_eq
    simp only [List.length_append, List.length_map] at hl
    omega
  · have hnd : (s.running.map Prod.fst ++ s.free).Nodup := h6.nodup_iff.mpr hnodup
    exact hnd.of_append_left

/-- C2 witness: the theorem at a mid-execution state of the example
batch, with one job running on the single device. -/
theorem sched_device_binding_witness :
    ([5] : List ℕ).Nodup ∧
      ({ pending := [], running := [(5, 0)], free := [], completedCount := 0,
          failedCount := 0, calls := [], cancelled := false,
          total := 1 } : SchedState).running.length ≤ ([5] : List ℕ).length ∧
      (({ pending := [], running := [(5, 0)], free := [], completedCount := 0,
          failedCount := 0, calls := [], cancelled := false,
          total := 1 } : SchedState).running.map Prod.fst).Nodup := by
  have h := sched_device_binding [0] [5]
    { pending := [], running := [(5, 0)], free := [], completedCount := 0,
      failedCount := 0, calls := [], cancelled := false, total := 1 }
    (Relation.ReflTransGen.single
      (SchedStep.assign (initState [0] [5]) 0 [] 5 [] rfl rfl rfl))
    (by decide)
  exact ⟨by decide, h.1, h.2⟩

/-- C3: on every `onComplete` invocation the running completed count is
at least 1 — so the ETA at line 176 of `compression_study.py` is only
ever computed with a non-zero divisor (it is withheld before the first
completion simply because no callback has fired) — and it equals
`(originalTotal - completedSoFar) * elapsedSoFar / completedSoFar`. -/
theorem etaSeconds_on_callbacks (jobs devices : List ℕ) (s : SchedState)
    (hreach : SchedReach jobs devices s) (c : CallRecord) (hc : c ∈ s.calls)
    (elapsed : ℚ) :
    1 ≤ c.completed ∧
      etaSeconds c.total c.completed elapsed =
        ((c.total : ℚ) - (c.completed : ℚ)) * elapsed / (c.completed : ℚ) := by
  obtain ⟨-, -, h3, -, -, -⟩ := schedInv_reach jobs devices s hreach
  constructor
  · have hmem : c.completed ∈ s.calls.map CallRecord.completed :=
      List.mem_map_of_mem _ hc
    rw [h3] at hmem
    exact (List.mem_range'_1.mp hmem).1
  · rfl

/-- C3 witness: the theorem at the single callback of the example batch,
with 10 seconds elapsed. -/
theorem etaSeconds_on_callbacks_witness :
    (⟨0, 1, 1⟩ : CallRecord) ∈ exampleFinal.calls ∧
      1 ≤ (⟨0, 1, 1⟩ : CallRecord).completed ∧
      etaSeconds (⟨0, 1, 1⟩ : CallRecord).total (⟨0, 1, 1⟩ : CallRecord).completed 10 =
        (((⟨0, 1, 1⟩ : CallRecord).total : ℚ) - ((⟨0, 1, 1⟩ : CallRecord).completed : ℚ)) *
          10 / ((⟨0, 1, 1⟩ : CallRecord).completed : ℚ) := by
  have h := etaSeconds_on_callbacks [0] [5] exampleFinal exampleFinal_reach
    ⟨0, 1, 1⟩ (by decide) 10
  exact ⟨by decide, h.1, h.2⟩

theorem isLeaf_false_iff (e : WalkEntry) :
    isLeaf e = false ↔ (e.numFiles = 0 ∨ e.numSubdirs ≠ 0) := by
  simp [isLeaf]
  tauto

theorem buildTasks_of_not_limit (args : StudyArgs) (h : truthy args.limit = false)
    (walk : List WalkEntry) :
    ∀ (ordinal count : Int),
      buildTasks args walk ordinal count =
        (passingDirs args walk ordinal).flatMap fun e => experiments.map (mkTask args e) := by
  induction walk with
  | nil =>
    intro ordinal count
    rfl
  | cons e rest ih =>
    intro ordinal count
    rw [buildTasks, passingDirs]
    by_cases hleaf : isLeaf e = true
    · have hcond : ¬(e.numFiles = 0 ∨ e.numSubdirs ≠ 0) := by
        rw [← isLeaf_false_iff]
        simp [hleaf]
      rw [if_neg hcond, if_pos hleaf]
      by_cases hA : truthy args.stride ∧ Int.fmod (ordinal + 1) (args.stride.getD 0) ≠ 0
      · rw [if_pos hA, if_neg (fun hp => hp.1 hA), ih]
      · rw [if_neg hA]
        by_cases hB : truthy args.skip ∧ ordinal + 1 < args.skip.getD 0
        · rw [if_pos hB, if_neg (fun hp => hp.2.1 hB), ih]
        · rw [if_neg hB]
          by_cases hC : args.filter.isSome ∧ e.shortDirname ∉ args.filter.getD []
          · rw [if_pos hC, if_neg (fun hp => hp.2.2 hC), ih]
          · rw [if_neg hC,
              if_neg (show ¬(truthy args.limit = true ∧ args.limit.getD 0 ≤ count + 1) from
                by simp [h]),
              if_pos (show passesSel args (ordinal + 1) e from ⟨hA, hB, hC⟩), ih]
            simp
    · have hcond : e.numFiles = 0 ∨ e.numSubdirs ≠ 0 :=
        (isLeaf_false_iff e).mp (by simpa using hleaf)
      rw [if_pos hcond, if_neg hleaf, ih]

theorem buildTasks_of_limit (args : StudyArgs) (h : truthy args.limit = true)
    (walk : List WalkEntry) :
    ∀ (ordinal count : Int),
      buildTasks args walk ordinal count =
        ((passingDirs args walk ordinal).take (max (args.limit.getD 0 - count) 1).toNat).flatMap
          fun e => experiments.map (mkTask args e) := by
  induction walk with
  | nil =>
    intro ordinal count
    simp [buildTasks, passingDirs]
  | cons e rest ih =>
    intro ordinal count
    rw [buildTasks, passingDirs]
    by_cases hleaf : isLeaf e = true
    · have hcond : ¬(e.numFiles = 0 ∨ e.numSubdirs ≠ 0) := by
        rw [← isLeaf_false_iff]
        simp [hleaf]
      rw [if_neg hcond, if_pos hleaf]
      by_cases hA : truthy args.stride ∧ Int.fmod (ordinal + 1) (args.stride.getD 0) ≠ 0
      · rw [if_pos hA, if_neg (fun hp => hp.1 hA), ih]
      · rw [if_neg hA]
        by_cases hB : truthy args.skip ∧ ordinal + 1 < args.skip.getD 0
        · rw [if_pos hB, if_neg (fun hp => hp.2.1 hB), ih]
        · rw [if_neg hB]
          by_cases hC : args.filter.isSome ∧ e.shortDirname ∉ args.filter.getD []
          · rw [if_pos hC, if_neg (fun hp => hp.2.2 hC), ih]
          · rw [if_neg hC,
              if_pos (show passesSel args (ordinal + 1) e from ⟨hA, hB, hC⟩)]
            by_cases hbreak : args.limit.getD 0 ≤ count + 1
            · rw [if_pos (show truthy args.limit = true ∧ args.limit.getD 0 ≤ count + 1 from
                ⟨h, hbreak⟩)]
              have hone : (max (args.limit.getD 0 - count) 1).toNat = 1 := by omega
              rw [hone, List.take_cons (by omega)]
              simp
            · rw [if_neg (show ¬(truthy args.limit = true ∧ args.limit.getD 0 ≤ count + 1) from
                by tauto), ih]
              have htake : (max (args.limit.getD 0 - count) 1).toNat =
                  (max (args.limit.getD 0 - (count + 1)) 1).toNat + 1 := by omega
              rw [htake, List.take_cons (by omega), List.flatMap_cons]
              simp
    · have hcond : e.numFiles = 0 ∨ e.numSubdirs ≠ 0 :=
        (isLeaf_false_iff e).mp (by simpa using hleaf)
      rw [if_pos hcond, if_neg hleaf, ih]

/-- C10: the sweep tool creates one task batch entry per experiment for
exactly the walked directories that contain at least one file and no
subdirectory and pass the stride / skip / filter / limit selection; the
experiments are `gridSizeScale ∈ 1..6` crossed with
`numFeatures ∈ {4, 8, 12, 16}` (24 per material), the tasks appear in
dataset-walk order then experiment order, and every task has both
`compress` and `decompress` set. -/
theorem studyTasks_spec (args : StudyArgs) (walk : List WalkEntry) :
    studyTasks args walk =
        (selectedDirs args walk).flatMap (fun e => experiments.map (mkTask args e)) ∧
      experiments.length = 24 ∧
      (∀ p ∈ experiments, p.2.gridSizeScale ∈ [1, 2, 3, 4, 5, 6] ∧
        p.2.numFeatures ∈ [4, 8, 12, 16] ∧
        p.1 = [p.2.gridSizeScale, p.2.numFeatures]) ∧
      (∀ t ∈ studyTasks args walk, t.1.compress = true ∧ t.1.decompress = true) := by
  have hmain : studyTasks args walk =
      (selectedDirs args walk).flatMap fun e => experiments.map (mkTask args e) := by
    unfold studyTasks selectedDirs
    by_cases h : truthy args.limit = true
    · rw [if_pos h, buildTasks_of_limit args h walk 0 0]
      norm_num
    · rw [if_neg h, buildTasks_of_not_limit args (by simpa using h) walk 0 0]
  refine ⟨hmain, by decide, by decide, ?_⟩
  intro t ht
  rw [hmain] at ht
  rw [List.mem_flatMap] at ht
  obtain ⟨e, -, ht⟩ := ht
  rw [List.mem_map] at ht
  obtain ⟨p, -, rfl⟩ := ht
  exact ⟨rfl, rfl⟩

/-- C10 witness: a one-directory dataset produces the full experiment
grid; the scale-1 features-4 task is in the batch with both `compress`
and `decompress` set. -/
theorem studyTasks_spec_witness :
    mkTask { } ⟨"d/m1", "m1", 0, 3⟩ ([1, 4], ⟨1, 4⟩) ∈
        studyTasks { } [⟨"d/m1", "m1", 0, 3⟩] ∧
      (mkTask { } ⟨"d/m1", "m1", 0, 3⟩ ([1, 4], ⟨1, 4⟩)).1.compress = true ∧
      (mkTask { } ⟨"d/m1", "m1", 0, 3⟩ ([1, 4], ⟨1, 4⟩)).1.decompress = true :=
  ⟨by decide,
    (studyTasks_spec { } [⟨"d/m1", "m1", 0, 3⟩]).2.2.2 _ (by decide)⟩

end NTCStudy
